import Mathlib

/-!
Verification development for the solana-sniper-bot event-detection and
dispatch pipeline. The Rust sources (src/dex_monitor.rs,
src/websocket_monitor.rs, src/lib.rs) are shallowly embedded: pure code
becomes Lean functions, I/O effects (RPC calls, channel sends, Telegram
delivery, sleeps, log lines) become explicit function parameters and
emitted action/trace lists, machine integers become Nat, and `f64` fields
that are only stored and copied (never computed on) become Rat.
-/

set_option maxRecDepth 4096

namespace SniperBot

/-- The active program-id constant of src/dex_monitor.rs (line 18; a
different literal on line 17 is commented out in the source). -/
def RAYDIUM_LIQUIDITY_POOL_V4_PROGRAM_ID : String :=
  "675kPX9MHTjS2zt1qfr1NYHuzeLXfQM9H24wFSUt1Mp8"

/-- `PoolUpdate` struct of src/websocket_monitor.rs. `liquidity` and
`volume_24h` are `f64` in Rust; they are only ever stored and copied, so
they are modelled as `Rat`. `timestamp` is `u64`. -/
structure PoolUpdate where
  pool_address : String
  token_a : String
  token_b : String
  liquidity : Rat
  volume_24h : Rat
  timestamp : Nat
  deriving DecidableEq, Repr

/-- `TokenListing` struct of src/websocket_monitor.rs. -/
structure TokenListing where
  token_address : String
  symbol : String
  name : String
  initial_liquidity : Rat
  timestamp : Nat
  deriving DecidableEq, Repr

/-- `PriceUpdate` struct of src/websocket_monitor.rs. -/
structure PriceUpdate where
  token_address : String
  price : Rat
  price_change_24h : Rat
  volume_24h : Rat
  timestamp : Nat
  deriving DecidableEq, Repr

/-- `WebSocketMessage` enum of src/websocket_monitor.rs. -/
inductive WebSocketMessage where
  | PoolUpdate (p : PoolUpdate)
  | TokenListing (t : TokenListing)
  | PriceUpdate (p : PriceUpdate)
  | Error (s : String)
  deriving DecidableEq, Repr

/-- Discriminator for the `PoolUpdate` variant. -/
def WebSocketMessage.isPoolUpdate : WebSocketMessage → Bool
  | .PoolUpdate _ => true
  | _ => false

/-- One instruction of a parsed transaction message, as
`solana_transaction_status::UiInstruction` is consumed by
`decode_transaction`: the code distinguishes `Parsed(PartiallyDecoded)`
(carrying a program id and account list), `Parsed(Parsed)` (handled by the
inner `_` arm) and every other variant such as `Compiled` (outer `_` arm). -/
inductive UiInstruction where
  | partiallyDecoded (program_id : String) (accounts : List String)
  | parsedFull
  | compiled
  deriving DecidableEq, Repr

/-- `UiParsedMessage`: the account keys (extracted but unused by the
decoder) and the instruction list. -/
structure UiParsedMessage where
  account_keys : List String
  instructions : List UiInstruction
  deriving DecidableEq, Repr

/-- `solana_transaction_status::UiMessage`: parsed or raw. -/
inductive UiMessage where
  | parsed (m : UiParsedMessage)
  | raw
  deriving DecidableEq, Repr

/-- `solana_transaction_status::EncodedTransaction`: the `Json` variant
carries signatures and a message; the remaining variants
(`LegacyBinary`, `Binary`, `Accounts`) all fall to the decoder's outer
`_` arm. -/
inductive EncodedTransaction where
  | json (signatures : List String) (message : UiMessage)
  | legacyBinary
  | binary
  | accounts
  deriving DecidableEq, Repr

/-- Whether the outer encoding is the `Json` variant. -/
def EncodedTransaction.isJson : EncodedTransaction → Bool
  | .json _ _ => true
  | _ => false

/-- `EncodedConfirmedTransactionWithStatusMeta.transaction.transaction` is
the only field `decode_transaction` reads; the wrapper is kept explicit. -/
structure EncodedConfirmedTransactionWithStatusMeta where
  transaction : EncodedTransaction
  deriving DecidableEq, Repr

/-- The per-instruction body of the loop in `decode_transaction`
(src/dex_monitor.rs lines 249-291). A `Parsed(PartiallyDecoded)`
instruction whose program id equals the configured constant and whose
account list has more than 9 entries yields one `PoolUpdate` built from
accounts 4, 8 and 9 with zero liquidity and volume and the decode-time
timestamp `now` (the embedding of `chrono::Utc::now().timestamp()`);
every other instruction only logs. The `getD` accesses stand for the
Rust index expressions `accounts[4]`, `accounts[8]`, `accounts[9]`,
which the length guard keeps in bounds. -/
def decodeInstruction (now : Nat) : UiInstruction → List WebSocketMessage
  | .partiallyDecoded program_id accounts =>
    if program_id = RAYDIUM_LIQUIDITY_POOL_V4_PROGRAM_ID ∧ 9 < accounts.length then
      [WebSocketMessage.PoolUpdate
        { pool_address := accounts.getD 4 ""
          token_a := accounts.getD 8 ""
          token_b := accounts.getD 9 ""
          liquidity := 0
          volume_24h := 0
          timestamp := now }]
    else []
  | .parsedFull => []
  | .compiled => []

/-- `decode_transaction` (src/dex_monitor.rs lines 234-305). `now` is the
clock value read by `chrono::Utc::now().timestamp()` inside the loop,
made an explicit parameter. A `Json` transaction with a parsed message
returns the concatenated per-instruction results; a `Json` transaction
with a raw message logs an error but still returns `Ok` of the empty
list; any other encoding returns the anyhow error. -/
def decode_transaction (now : Nat) (fetched_tx : EncodedConfirmedTransactionWithStatusMeta) :
    Except String (List WebSocketMessage) :=
  match fetched_tx.transaction with
  | .json _signatures message =>
    match message with
    | .parsed parsed_message =>
      .ok (parsed_message.instructions.flatMap (decodeInstruction now))
    | .raw => .ok []
  | _ => .error "Transaction is not in JsonParsed format"

/-- The decoder's matching condition, as a standalone predicate: a
partially decoded instruction for the configured program with more than 9
referenced accounts. -/
def isPoolInit : UiInstruction → Bool
  | .partiallyDecoded program_id accounts =>
    program_id = RAYDIUM_LIQUIDITY_POOL_V4_PROGRAM_ID ∧ 9 < accounts.length
  | _ => false

/-! ## Transaction fetch with retry (src/dex_monitor.rs lines 104-130)

The Rust loop keeps a `retry_count` starting at 0 with `max_retries = 3`;
each iteration calls `get_transaction`, breaks on success, and on failure
increments the counter, then either gives up (counter reached the
maximum) or sleeps `2^retry_count * 100` milliseconds before the next
attempt. The fetcher is a parameter `fetch`, applied to the current
`retry_count` so that a run can be summarised attempt by attempt; the
returned triple records the fetch result, the sleep durations in
milliseconds in the order they occur, and the number of fetch attempts
made. -/

/-- `max_retries` of the fetch loop. -/
def max_retries : Nat := 3

/-- One unfolding of the Rust `while retry_count < max_retries` loop;
`remaining` is `max_retries - retry_count`, which the loop guard keeps
nonnegative and the increment strictly decreases. -/
def fetchLoop (fetch : Nat → Except String EncodedConfirmedTransactionWithStatusMeta) :
    (remaining : Nat) → (retry_count : Nat) →
    Option EncodedConfirmedTransactionWithStatusMeta × List Nat × Nat
  | 0, _ => (none, [], 0)
  | remaining + 1, retry_count =>
    match fetch retry_count with
    | .ok tx => (some tx, [], 1)
    | .error _ =>
      if retry_count + 1 ≥ max_retries then (none, [], 1)
      else
        let rest := fetchLoop fetch remaining (retry_count + 1)
        (rest.1, 2 ^ (retry_count + 1) * 100 :: rest.2.1, rest.2.2 + 1)

/-- The whole fetch-with-retry sequence for one candidate signature: the
loop is entered with a fresh `retry_count` of 0. -/
def fetchWithRetry (fetch : Nat → Except String EncodedConfirmedTransactionWithStatusMeta) :
    Option EncodedConfirmedTransactionWithStatusMeta × List Nat × Nat :=
  fetchLoop fetch max_retries 0

/-! ## Observable actions of the watcher and the orchestrator -/

/-- The side effects performed by the chain watcher and the orchestrator
loop, reified: log lines, channel publishes, Telegram notifications, and
`snipe_token` invocations. -/
inductive Action where
  | logInfo (s : String)
  | logError (s : String)
  | logDebug (s : String)
  | busSend (m : WebSocketMessage)
  | telegramNotify (signature pool_address token_a token_b : String)
  | snipeCall (wallet_index : Nat) (token_address : String) (amount_sol : Rat)
  deriving DecidableEq, Repr

/-- Whether an action is a `snipe_token` invocation. -/
def Action.isSnipeCall : Action → Bool
  | .snipeCall _ _ _ => true
  | _ => false

/-- Whether an action is a Telegram notification. -/
def Action.isTelegramNotify : Action → Bool
  | .telegramNotify _ _ _ _ => true
  | _ => false

/-- The per-event forwarding loop of `monitor_raydium_onchain`
(src/dex_monitor.rs lines 137-159): every decoded `PoolUpdate` is sent to
the bus channel and then announced via Telegram, each failure being
logged without stopping the iteration; a decoded value of any other
variant is only logged as an error. `sendRes` and `tgRes` give the
outcome of the channel send and the Telegram delivery. -/
def forwardOne (signature : String) (sendRes : WebSocketMessage → Except String Unit)
    (tgRes : String → Except String Unit) (u : WebSocketMessage) : List Action :=
  match u with
  | .PoolUpdate p =>
    [Action.logInfo "Sending info about new pool", Action.busSend u] ++
    (match sendRes u with
     | .ok _ => []
     | .error e => [Action.logError e]) ++
    [Action.telegramNotify signature p.pool_address p.token_a p.token_b] ++
    (match tgRes signature with
     | .ok _ => []
     | .error e => [Action.logError e])
  | _ => [Action.logError "Failed to get pool update"]

/-- The whole forwarding loop over the decoded events. -/
def forwardDecoded (signature : String) (updates : List WebSocketMessage)
    (sendRes : WebSocketMessage → Except String Unit)
    (tgRes : String → Except String Unit) : List Action :=
  updates.flatMap (forwardOne signature sendRes tgRes)

/-- Outcome of handling one parsable candidate signature in the watcher
loop (src/dex_monitor.rs lines 104-168): fetch with retry, then decode
and forward, or skip the signature when every fetch attempt failed. The
triple also reports the attempt count and sleep durations of the fetch
phase. -/
def processSignature (signature : String)
    (fetch : Nat → Except String EncodedConfirmedTransactionWithStatusMeta) (now : Nat)
    (sendRes : WebSocketMessage → Except String Unit)
    (tgRes : String → Except String Unit) : List Action × Nat × List Nat :=
  match fetchWithRetry fetch with
  | (some fetched_tx, delays, attempts) =>
    match decode_transaction now fetched_tx with
    | .ok pull_updates => (forwardDecoded signature pull_updates sendRes tgRes, attempts, delays)
    | .error e => ([Action.logError ("Failed to decode transaction: " ++ e)], attempts, delays)
  | (none, delays, attempts) =>
    ([Action.logDebug ("Skipping transaction " ++ signature ++ " due to fetch failure")],
      attempts, delays)

/-- The orchestrator's per-message dispatch, the body of the
`receive_message` loop in `SolanaSniperBot::start_monitoring`
(src/lib.rs lines 376-407). A `TokenListing` is logged and, when
`auto_sell` is set, `snipe_token` is called for every wallet index in
order, a failed call being logged without stopping the iteration; a
`PoolUpdate`, a `PriceUpdate` and an `Error` are only logged. `snipe`
gives each call's outcome. -/
def orchestratorStep (auto_sell : Bool) (max_sol_per_trade : Rat) (num_wallets : Nat)
    (snipe : Nat → String → Rat → Except String String) :
    WebSocketMessage → List Action
  | .TokenListing listing =>
    Action.logInfo ("New token listing: " ++ listing.symbol) ::
    (if auto_sell then
      (List.range num_wallets).flatMap fun i =>
        Action.snipeCall i listing.token_address max_sol_per_trade ::
        (match snipe i listing.token_address max_sol_per_trade with
         | .ok _ => []
         | .error e => [Action.logError ("Failed to snipe token: " ++ e)])
    else [])
  | .PoolUpdate p => [Action.logInfo ("Pool update: " ++ p.pool_address)]
  | .PriceUpdate p => [Action.logInfo ("Price update: " ++ p.token_address)]
  | .Error e => [Action.logError ("WebSocket error: " ++ e)]

/-! ## JSON values and the feed monitor (src/websocket_monitor.rs)

`serde_json::Value` is modelled by `JsonValue`. Numbers are modelled as
`Rat`: the monitor never computes on a number, it only stores it into an
`f64` field (which accepts any JSON number) or a `u64` field (which
accepts a nonnegative integral number below `2^64`). -/

/-- A parsed JSON value (`serde_json::Value`). -/
inductive JsonValue where
  | null
  | bool (b : Bool)
  | num (q : Rat)
  | str (s : String)
  | arr (elems : List JsonValue)
  | obj (fields : List (String × JsonValue))

/-- `Value::get` on an object key (`data.get("params")` etc.): the value
of the first field with the given key, if any. -/
def JsonValue.getKey : JsonValue → String → Option JsonValue
  | .obj fields, key => (fields.find? (fun f => f.1 = key)).map (fun f => f.2)
  | _, _ => none

/-- `Value::as_str`. -/
def JsonValue.asStr : JsonValue → Option String
  | .str s => some s
  | _ => none

/-- Deserialization of an `f64` struct field (`serde_json` accepts any
JSON number). -/
def deserF64 : JsonValue → Option Rat
  | .num q => some q
  | _ => none

/-- Deserialization of a `u64` struct field: a nonnegative integral
number below `2^64`. -/
def deserU64 : JsonValue → Option Nat
  | .num q => if q.den = 1 ∧ 0 ≤ q.num ∧ q.num < 2 ^ 64 then some q.num.toNat else none
  | _ => none

/-- Deserialization of a `String` struct field. -/
def deserString : JsonValue → Option String
  | .str s => some s
  | _ => none

/-- `serde_json::from_value::<PoolUpdate>`: every declared field must be
present with the right type (unknown fields are ignored, serde's
default). -/
def deserPoolUpdate (v : JsonValue) : Option PoolUpdate := do
  let pool_address ← (v.getKey "pool_address").bind deserString
  let token_a ← (v.getKey "token_a").bind deserString
  let token_b ← (v.getKey "token_b").bind deserString
  let liquidity ← (v.getKey "liquidity").bind deserF64
  let volume_24h ← (v.getKey "volume_24h").bind deserF64
  let timestamp ← (v.getKey "timestamp").bind deserU64
  pure { pool_address, token_a, token_b, liquidity, volume_24h, timestamp }

/-- `serde_json::from_value::<TokenListing>`. -/
def deserTokenListing (v : JsonValue) : Option TokenListing := do
  let token_address ← (v.getKey "token_address").bind deserString
  let symbol ← (v.getKey "symbol").bind deserString
  let name ← (v.getKey "name").bind deserString
  let initial_liquidity ← (v.getKey "initial_liquidity").bind deserF64
  let timestamp ← (v.getKey "timestamp").bind deserU64
  pure { token_address, symbol, name, initial_liquidity, timestamp }

/-- `serde_json::from_value::<PriceUpdate>`. -/
def deserPriceUpdate (v : JsonValue) : Option PriceUpdate := do
  let token_address ← (v.getKey "token_address").bind deserString
  let price ← (v.getKey "price").bind deserF64
  let price_change_24h ← (v.getKey "price_change_24h").bind deserF64
  let volume_24h ← (v.getKey "volume_24h").bind deserF64
  let timestamp ← (v.getKey "timestamp").bind deserU64
  pure { token_address, price, price_change_24h, volume_24h, timestamp }

/-- Decidable equality for `Except`, needed to compute with embedded
results. -/
instance exceptDecEq {ε α : Type} [DecidableEq ε] [DecidableEq α] :
    DecidableEq (Except ε α) := fun a b =>
  match a, b with
  | .ok x, .ok y =>
    if h : x = y then .isTrue (by rw [h]) else .isFalse (by intro c; cases c; exact h rfl)
  | .error x, .error y =>
    if h : x = y then .isTrue (by rw [h]) else .isFalse (by intro c; cases c; exact h rfl)
  | .ok _, .error _ => .isFalse (by intro c; cases c)
  | .error _, .ok _ => .isFalse (by intro c; cases c)

/-- What one call of `WebSocketMonitor::process_message` does: its Rust
return value, the messages sent into the channel, and the warning lines
logged. -/
structure ProcessOutcome where
  result : Except String Unit
  sent : List WebSocketMessage
  warnings : List String
  deriving DecidableEq, Repr

/-- The `match method` statement of `process_message`
(src/websocket_monitor.rs lines 122-147): each recognized method
deserializes `result` into the corresponding variant and sends it,
silently dropping a payload that fails to deserialize; an unrecognized
method logs a warning. -/
def dispatchMethod (method : String) (result : JsonValue) : ProcessOutcome :=
  if method = "poolUpdate" then
    match deserPoolUpdate result with
    | some pool_update =>
      { result := .ok (), sent := [WebSocketMessage.PoolUpdate pool_update],
        warnings := [] }
    | none => { result := .ok (), sent := [], warnings := [] }
  else if method = "tokenListing" then
    match deserTokenListing result with
    | some token_listing =>
      { result := .ok (), sent := [WebSocketMessage.TokenListing token_listing],
        warnings := [] }
    | none => { result := .ok (), sent := [], warnings := [] }
  else if method = "priceUpdate" then
    match deserPriceUpdate result with
    | some price_update =>
      { result := .ok (), sent := [WebSocketMessage.PriceUpdate price_update],
        warnings := [] }
    | none => { result := .ok (), sent := [], warnings := [] }
  else
    { result := .ok (), sent := [],
      warnings := ["Unknown WebSocket method: " ++ method] }

/-- `WebSocketMonitor::process_message` (src/websocket_monitor.rs lines
117-153). The `text` argument is pre-parsed: `none` stands for a frame
`serde_json::from_str` rejects. Every `if let` that fails simply falls
through, so each branch ends in `Ok(())`; only an unknown (present,
string-valued) method logs a warning. -/
def processMessage (parsedText : Option JsonValue) : ProcessOutcome :=
  match parsedText with
  | none => { result := .ok (), sent := [], warnings := [] }
  | some data =>
    match data.getKey "params" with
    | none => { result := .ok (), sent := [], warnings := [] }
    | some params =>
      match params.getKey "result" with
      | none => { result := .ok (), sent := [], warnings := [] }
      | some result =>
        match (params.getKey "method").bind JsonValue.asStr with
        | none => { result := .ok (), sent := [], warnings := [] }
        | some method => dispatchMethod method result

/-- One inbound item of the read loop (`read.next()`):
a text frame (pre-parsed as for `processMessage`), a close frame, a
transport error, or any other frame kind (binary, ping, pong). -/
inductive Frame where
  | text (parsed : Option JsonValue)
  | close
  | transportError (e : String)
  | other

/-- Loop control of the read loop body (src/websocket_monitor.rs lines
74-91): only a close frame or a transport error breaks out of the read
loop; a text frame — well-formed or not — continues. -/
inductive LoopControl where
  | cont
  | brk
  deriving DecidableEq, Repr

/-- The match arms of the read loop body. -/
def handleFrame : Frame → LoopControl
  | .text _ => .cont
  | .close => .brk
  | .transportError _ => .brk
  | .other => .cont

/-- The handshake frame built by `WebSocketMonitor::send_subscription`
(src/websocket_monitor.rs lines 106-111). -/
def subscribeMsg : JsonValue :=
  .obj [("jsonrpc", .str "2.0"), ("id", .num 1), ("method", .str "subscribe"),
        ("params", .arr [.str "poolUpdates", .str "tokenListings", .str "priceUpdates"])]

/-- The observable events of one iteration of `start_monitoring`'s
connection loop. -/
inductive MonitorEvent where
  | connectAttempt
  | connectFailed (e : String)
  | sentHandshake (frame : JsonValue)
  | handshakeFailed (e : String)
  | readFrame (f : Frame)
  | sleep (ms : Nat)

/-- Whether a monitor event is the consumption of an inbound frame. -/
def MonitorEvent.isReadFrame : MonitorEvent → Bool
  | .readFrame _ => true
  | _ => false

/-- Whether a monitor event is the sending of the handshake frame. -/
def MonitorEvent.isSentHandshake : MonitorEvent → Bool
  | .sentHandshake _ => true
  | _ => false

/-- The outcome the environment hands one iteration of the connection
loop: the connect fails, or it succeeds and the handshake send either
fails or succeeds, in the latter case followed by the inbound frames the
loop consumes until close or stream end. -/
inductive ConnOutcome where
  | connectErr (e : String)
  | connected (handshake : Except String Unit) (frames : List Frame)

/-- One iteration of the `loop` in `WebSocketMonitor::start_monitoring`
(src/websocket_monitor.rs lines 64-98): connect; on success immediately
send the subscription handshake, and only when that send succeeds enter
the read loop; every path ends with the reconnect-delay sleep before the
next iteration. -/
def connectionIteration (reconnect_delay_ms : Nat) : ConnOutcome → List MonitorEvent
  | .connectErr e =>
    [MonitorEvent.connectAttempt, MonitorEvent.connectFailed e,
     MonitorEvent.sleep reconnect_delay_ms]
  | .connected (.error e) _frames =>
    [MonitorEvent.connectAttempt, MonitorEvent.sentHandshake subscribeMsg,
     MonitorEvent.handshakeFailed e, MonitorEvent.sleep reconnect_delay_ms]
  | .connected (.ok _) frames =>
    [MonitorEvent.connectAttempt, MonitorEvent.sentHandshake subscribeMsg] ++
    frames.map MonitorEvent.readFrame ++ [MonitorEvent.sleep reconnect_delay_ms]

/-- The connection loop run over a (finite prefix of a) sequence of
connection outcomes. -/
def monitorTrace (reconnect_delay_ms : Nat) (outcomes : List ConnOutcome) :
    List MonitorEvent :=
  outcomes.flatMap (connectionIteration reconnect_delay_ms)

/-! ## Wallet operations of `SolanaSniperBot` (src/lib.rs)

The bot holds a wallet list, a config and a mutable `SniperState`. RPC
and collaborator calls are explicit function parameters; each embedded
operation returns its Rust result together with the list of chain
operations it performed and (for `snipe_token`) the state it leaves
behind. Balances and amounts are in SOL as `Rat` (the Rust `f64`
arithmetic here is only scaling by `LAMPORTS_PER_SOL`, which the claims
never inspect). -/

/-- A chain-side or collaborator-side operation performed by a wallet
function. -/
inductive ChainOp where
  | getBalance (pubkey : String)
  | getLatestBlockhash
  | sendAndConfirmTransaction
  | analyzeToken (token_address : String)
  | jupiterQuote (input_token output_token : String)
  | jupiterSwap
  deriving DecidableEq, Repr

/-- `SniperState` of src/lib.rs. -/
structure SniperState where
  is_running : Bool
  total_trades : Nat
  successful_trades : Nat
  failed_trades : Nat
  total_profit : Rat
  last_snipe_time : Nat
  active_monitors : Nat
  deriving DecidableEq, Repr

/-- The environment of the wallet operations: every external call made
after the index guards, as explicit functions. -/
structure ChainEnv where
  getBalance : String → Except String Nat
  getLatestBlockhash : Except String String
  sendAndConfirmTransaction : Except String String
  analyzeToken : String → Except String Bool
  jupiterQuotePriceImpact : String → String → Except String Rat
  jupiterSwap : Except String String

/-- `SolanaSniperBot::check_balance` (src/lib.rs lines 182-191): reject
an out-of-range wallet index before any chain call, otherwise fetch the
lamport balance and return it scaled to SOL. -/
def check_balance (wallets : List String) (env : ChainEnv) (wallet_index : Nat) :
    Except String Rat × List ChainOp :=
  if wallet_index ≥ wallets.length then (.error "Invalid wallet index", [])
  else
    let pubkey := wallets.getD wallet_index ""
    match env.getBalance pubkey with
    | .ok balance => (.ok ((balance : Rat) / 1000000000), [ChainOp.getBalance pubkey])
    | .error e => (.error e, [ChainOp.getBalance pubkey])

/-- `SolanaSniperBot::feed_wallet` (src/lib.rs lines 194-221): reject an
out-of-range source or destination index before any chain call,
otherwise fetch a blockhash and send the signed transfer. -/
def feed_wallet (wallets : List String) (env : ChainEnv)
    (from_index to_index : Nat) (_amount : Rat) :
    Except String String × List ChainOp :=
  if from_index ≥ wallets.length ∨ to_index ≥ wallets.length then
    (.error "Invalid wallet index", [])
  else
    match env.getLatestBlockhash with
    | .error e => (.error e, [ChainOp.getLatestBlockhash])
    | .ok _recent_blockhash =>
      match env.sendAndConfirmTransaction with
      | .ok signature =>
        (.ok signature, [ChainOp.getLatestBlockhash, ChainOp.sendAndConfirmTransaction])
      | .error e => (.error e, [ChainOp.getLatestBlockhash, ChainOp.sendAndConfirmTransaction])

/-- `SolanaSniperBot::snipe_token` (src/lib.rs lines 277-320): reject an
out-of-range wallet index first; then check the balance, optionally run
the anti-rug analysis, get a Jupiter quote, check its price impact,
execute the swap, and only then update the state counters. `now` embeds
`chrono::Utc::now().timestamp()` at the state update. -/
def snipe_token (wallets : List String) (env : ChainEnv)
    (anti_rug_check : Bool) (max_price_impact : Rat) (state : SniperState) (now : Nat)
    (wallet_index : Nat) (token_address : String) (amount_sol : Rat) :
    Except String String × List ChainOp × SniperState :=
  if wallet_index ≥ wallets.length then (.error "Invalid wallet index", [], state)
  else
    match check_balance wallets env wallet_index with
    | (.error e, ops) => (.error e, ops, state)
    | (.ok balance, ops) =>
      if balance < amount_sol then
        (.error "Insufficient balance", ops, state)
      else
        let analysis :
            Except String Unit × List ChainOp :=
          if anti_rug_check then
            match env.analyzeToken token_address with
            | .error e => (.error e, [ChainOp.analyzeToken token_address])
            | .ok is_safe =>
              if is_safe then (.ok (), [ChainOp.analyzeToken token_address])
              else (.error "Token failed safety check", [ChainOp.analyzeToken token_address])
          else (.ok (), [])
        match analysis with
        | (.error e, ops2) => (.error e, ops ++ ops2, state)
        | (.ok _, ops2) =>
          let sol_mint := "So11111111111111111111111111111111111111112"
          match env.jupiterQuotePriceImpact sol_mint token_address with
          | .error e =>
            (.error e, ops ++ ops2 ++ [ChainOp.jupiterQuote sol_mint token_address], state)
          | .ok price_impact =>
            if price_impact > max_price_impact then
              (.error "Price impact too high",
                ops ++ ops2 ++ [ChainOp.jupiterQuote sol_mint token_address], state)
            else
              match env.jupiterSwap with
              | .error e =>
                (.error e,
                  ops ++ ops2 ++ [ChainOp.jupiterQuote sol_mint token_address,
                    ChainOp.jupiterSwap], state)
              | .ok signature =>
                (.ok signature,
                  ops ++ ops2 ++ [ChainOp.jupiterQuote sol_mint token_address,
                    ChainOp.jupiterSwap],
                  { state with
                      total_trades := state.total_trades + 1
                      successful_trades := state.successful_trades + 1
                      last_snipe_time := now })

/-- Timestamp erasure on one event: the `timestamp` field of a
`PoolUpdate` is replaced by 0, every other variant is untouched. -/
def eraseTimestamp : WebSocketMessage → WebSocketMessage
  | .PoolUpdate p => .PoolUpdate { p with timestamp := 0 }
  | m => m

/-- Timestamp erasure on a decode result. -/
def eraseStamps : Except String (List WebSocketMessage) → Except String (List WebSocketMessage)
  | .ok l => .ok (l.map eraseTimestamp)
  | .error e => .error e

/-- Whether a decode result is the error case. -/
def exceptIsError : Except String (List WebSocketMessage) → Bool
  | .error _ => true
  | .ok _ => false

/-! ## Helper lemmas -/

lemma decodeInstruction_length (now : Nat) (i : UiInstruction) :
    (decodeInstruction now i).length = if isPoolInit i then 1 else 0 := by
  cases i with
  | partiallyDecoded pid accs =>
    by_cases h : pid = RAYDIUM_LIQUIDITY_POOL_V4_PROGRAM_ID ∧ 9 < accs.length
    · simp [decodeInstruction, isPoolInit, h]
    · simp [decodeInstruction, isPoolInit, h]
  | parsedFull => simp [decodeInstruction, isPoolInit]
  | compiled => simp [decodeInstruction, isPoolInit]

lemma decodeInstruction_nonmatching (now : Nat) (i : UiInstruction)
    (h : isPoolInit i = false) : decodeInstruction now i = [] := by
  cases i with
  | partiallyDecoded pid accs =>
    simp only [isPoolInit, decide_eq_false_iff_not] at h
    simp [decodeInstruction, h]
  | parsedFull => rfl
  | compiled => rfl

lemma decodeInstruction_erase (n₁ n₂ : Nat) (i : UiInstruction) :
    (decodeInstruction n₁ i).map eraseTimestamp = (decodeInstruction n₂ i).map eraseTimestamp := by
  cases i with
  | partiallyDecoded pid accs =>
    simp only [decodeInstruction]
    split <;> simp [eraseTimestamp]
  | parsedFull => rfl
  | compiled => rfl

lemma flatMap_decode_erase (n₁ n₂ : Nat) (l : List UiInstruction) :
    (l.flatMap (decodeInstruction n₁)).map eraseTimestamp =
      (l.flatMap (decodeInstruction n₂)).map eraseTimestamp := by
  induction l with
  | nil => rfl
  | cons i t ih =>
    simp only [List.flatMap_cons, List.map_append, ih, decodeInstruction_erase n₁ n₂ i]

lemma flatMap_decode_length (now : Nat) (l : List UiInstruction) :
    (l.flatMap (decodeInstruction now)).length = l.countP (fun i => isPoolInit i) := by
  induction l with
  | nil => rfl
  | cons i t ih =>
    simp only [List.flatMap_cons, List.length_append, ih, List.countP_cons,
      decodeInstruction_length]
    split <;> omega

/-! ## C1, C6, C9: the decoder -/

/-- C1: a fully-parsed transaction decodes to the concatenation of its
per-instruction results; a partially decoded instruction for the
configured DEX program id with more than 9 accounts yields exactly one
`PoolUpdate` whose pool address, token A and token B are the accounts at
indices 4, 8 and 9 with zero liquidity and volume; a non-matching
instruction yields nothing; the number of emitted events equals the
number of matching instructions. -/
theorem decode_extracts_pool_events (now : Nat) (signatures account_keys : List String)
    (instructions : List UiInstruction) :
    decode_transaction now ⟨.json signatures (.parsed ⟨account_keys, instructions⟩)⟩ =
      .ok (instructions.flatMap (decodeInstruction now)) ∧
    (∀ program_id accounts, program_id = RAYDIUM_LIQUIDITY_POOL_V4_PROGRAM_ID →
      9 < accounts.length →
      decodeInstruction now (.partiallyDecoded program_id accounts) =
        [WebSocketMessage.PoolUpdate
          { pool_address := accounts.getD 4 "", token_a := accounts.getD 8 "",
            token_b := accounts.getD 9 "", liquidity := 0, volume_24h := 0,
            timestamp := now }]) ∧
    (∀ i, isPoolInit i = false → decodeInstruction now i = []) ∧
    (instructions.flatMap (decodeInstruction now)).length =
      instructions.countP (fun i => isPoolInit i) := by
  refine ⟨rfl, ?_, ?_, flatMap_decode_length now instructions⟩
  · intro program_id accounts hpid hlen
    simp [decodeInstruction, hpid, hlen]
  · exact fun i h => decodeInstruction_nonmatching now i h

/-- Witness for C1 at a concrete matching transaction. -/
theorem decode_extracts_pool_events_witness :
    decodeInstruction 7 (.partiallyDecoded RAYDIUM_LIQUIDITY_POOL_V4_PROGRAM_ID
        ["a0", "a1", "a2", "a3", "a4", "a5", "a6", "a7", "a8", "a9"]) =
      [WebSocketMessage.PoolUpdate
        { pool_address := "a4", token_a := "a8", token_b := "a9",
          liquidity := 0, volume_24h := 0, timestamp := 7 }] := by
  have h := (decode_extracts_pool_events 7 ["sig"] ["k"] []).2.1
    RAYDIUM_LIQUIDITY_POOL_V4_PROGRAM_ID
    ["a0", "a1", "a2", "a3", "a4", "a5", "a6", "a7", "a8", "a9"] rfl (by decide)
  simpa using h

/-- C6: an instruction with the configured program id but at most 9
accounts yields zero events, and a parsed transaction containing it still
decodes without error. -/
theorem decoder_small_account_list (now : Nat) (program_id : String)
    (accounts : List String) (_hpid : program_id = RAYDIUM_LIQUIDITY_POOL_V4_PROGRAM_ID)
    (hlen : accounts.length ≤ 9) :
    decodeInstruction now (.partiallyDecoded program_id accounts) = [] ∧
    (∀ signatures account_keys instructions,
      UiInstruction.partiallyDecoded program_id accounts ∈ instructions →
      ∃ events,
        decode_transaction now ⟨.json signatures (.parsed ⟨account_keys, instructions⟩)⟩ =
          .ok events) := by
  constructor
  · apply decodeInstruction_nonmatching
    simp only [isPoolInit, decide_eq_false_iff_not]
    intro h
    omega
  · exact fun _ _ _ _ => ⟨_, rfl⟩

/-- Witness for C6 at a concrete 9-account instruction. -/
theorem decoder_small_account_list_witness :
    decodeInstruction 3 (.partiallyDecoded RAYDIUM_LIQUIDITY_POOL_V4_PROGRAM_ID
        ["b0", "b1", "b2", "b3", "b4", "b5", "b6", "b7", "b8"]) = [] :=
  (decoder_small_account_list 3 RAYDIUM_LIQUIDITY_POOL_V4_PROGRAM_ID
    ["b0", "b1", "b2", "b3", "b4", "b5", "b6", "b7", "b8"] rfl (by decide)).1

/-- C9: every element of a successful decode result is the `PoolUpdate`
variant; the decoder never produces `TokenListing`, `PriceUpdate` or
`Error` values. -/
theorem decode_only_pool_updates (now : Nat)
    (tx : EncodedConfirmedTransactionWithStatusMeta) (events : List WebSocketMessage)
    (h : decode_transaction now tx = .ok events) :
    events.all WebSocketMessage.isPoolUpdate = true := by
  obtain ⟨t⟩ := tx
  cases t with
  | json signatures message =>
    cases message with
    | parsed pm =>
      simp only [decode_transaction, Except.ok.injEq] at h
      subst h
      simp only [List.all_eq_true]
      intro m hm
      obtain ⟨i, _, hmi⟩ := List.mem_flatMap.mp hm
      cases i with
      | partiallyDecoded pid accs =>
        simp only [decodeInstruction] at hmi
        split at hmi
        · simp only [List.mem_singleton] at hmi
          subst hmi
          rfl
        · simp at hmi
      | parsedFull => simp [decodeInstruction] at hmi
      | compiled => simp [decodeInstruction] at hmi
    | raw =>
      simp only [decode_transaction, Except.ok.injEq] at h
      subst h
      rfl
  | legacyBinary => simp [decode_transaction] at h
  | binary => simp [decode_transaction] at h
  | accounts => simp [decode_transaction] at h

/-- Witness for C9 at a concrete matching transaction. -/
theorem decode_only_pool_updates_witness :
    ([WebSocketMessage.PoolUpdate
        { pool_address := "a4", token_a := "a8", token_b := "a9",
          liquidity := 0, volume_24h := 0, timestamp := 5 }] :
      List WebSocketMessage).all WebSocketMessage.isPoolUpdate = true :=
  decode_only_pool_updates 5
    ⟨.json ["s"] (.parsed ⟨["k"],
      [.partiallyDecoded RAYDIUM_LIQUIDITY_POOL_V4_PROGRAM_ID
        ["a0", "a1", "a2", "a3", "a4", "a5", "a6", "a7", "a8", "a9"]]⟩)⟩
    _ (by decide)

/-! ## C2: retry exhaustion -/

/-- C2 counterexample: with a fetcher that always fails, the run makes 3
attempts but sleeps only twice, 200ms then 400ms — there is no delay of
(at least) 100ms before the first attempt, so the claimed schedule of
three delays ≥100ms, ≥200ms and ≥400ms does not occur. -/
theorem retry_no_initial_delay_cx :
    fetchWithRetry (fun _ => .error "fetch failed") = (none, [200, 400], 3) ∧
    (fetchWithRetry (fun _ => .error "fetch failed")).2.1.length = 2 ∧
    ¬ (100 ∈ (fetchWithRetry (fun _ => .error "fetch failed")).2.1) := by
  refine ⟨rfl, rfl, ?_⟩
  decide

/-- C2 (amended): when every fetch of a signature fails, exactly 3
attempts are made with no delay before the first attempt and delays of
exactly 200ms and 400ms before the second and third; the result is a
definitive `none`, the watcher emits only a debug skip line for the
signature, and every signature enters the loop with a fresh attempt
count of zero. -/
theorem retry_exhaustion_behavior
    (fetch : Nat → Except String EncodedConfirmedTransactionWithStatusMeta)
    (h : ∀ n, ∃ e, fetch n = .error e) :
    fetchWithRetry fetch = (none, [200, 400], 3) ∧
    (∀ signature now sendRes tgRes,
      processSignature signature fetch now sendRes tgRes =
        ([Action.logDebug ("Skipping transaction " ++ signature ++ " due to fetch failure")],
          3, [200, 400])) := by
  obtain ⟨e0, h0⟩ := h 0
  obtain ⟨e1, h1⟩ := h 1
  obtain ⟨e2, h2⟩ := h 2
  have hrun : fetchWithRetry fetch = (none, [200, 400], 3) := by
    simp [fetchWithRetry, fetchLoop, max_retries, h0, h1, h2]
  refine ⟨hrun, fun signature now sendRes tgRes => ?_⟩
  simp [processSignature, hrun]

/-- Witness for C2 at the always-failing fetcher. -/
theorem retry_exhaustion_behavior_witness :
    processSignature "sig" (fun _ => .error "node unavailable") 0
        (fun _ => .ok ()) (fun _ => .ok ()) =
      ([Action.logDebug "Skipping transaction sig due to fetch failure"], 3, [200, 400]) := by
  have h := (retry_exhaustion_behavior (fun _ => .error "node unavailable")
    (fun _ => ⟨"node unavailable", rfl⟩)).2 "sig" 0 (fun _ => .ok ()) (fun _ => .ok ())
  simpa using h

/-! ## C4: decoder determinism -/

/-- C4 counterexample: the decoder reads the ambient clock for the
`timestamp` field, so two runs on the same fixed transaction record, at
decode times 0 and 1, return different events. -/
theorem decode_timestamp_dependence_cx :
    decode_transaction 0
        ⟨.json ["s"] (.parsed ⟨["k"],
          [.partiallyDecoded RAYDIUM_LIQUIDITY_POOL_V4_PROGRAM_ID
            ["a0", "a1", "a2", "a3", "a4", "a5", "a6", "a7", "a8", "a9"]]⟩)⟩ ≠
      decode_transaction 1
        ⟨.json ["s"] (.parsed ⟨["k"],
          [.partiallyDecoded RAYDIUM_LIQUIDITY_POOL_V4_PROGRAM_ID
            ["a0", "a1", "a2", "a3", "a4", "a5", "a6", "a7", "a8", "a9"]]⟩)⟩ := by
  decide

/-- C4 (amended): the decoder is deterministic given the transaction and
the decode-time clock reading; every field except `timestamp` is
determined by the transaction alone, i.e. decode results at any two clock
readings agree after erasing timestamps. -/
theorem decode_deterministic_modulo_timestamp
    (tx : EncodedConfirmedTransactionWithStatusMeta) (n₁ n₂ : Nat) :
    eraseStamps (decode_transaction n₁ tx) = eraseStamps (decode_transaction n₂ tx) := by
  obtain ⟨t⟩ := tx
  cases t with
  | json signatures message =>
    cases message with
    | parsed pm =>
      simp only [decode_transaction, eraseStamps]
      rw [flatMap_decode_erase n₁ n₂]
    | raw => rfl
  | legacyBinary => rfl
  | binary => rfl
  | accounts => rfl

/-! ## C5: decoder error behaviour by encoding -/

/-- C5 counterexample: a binary-encoded transaction — whose encoding is
not the fully-parsed instruction form — is answered with a `DecodeError`,
not with an empty success. -/
theorem decode_binary_errors_cx :
    EncodedTransaction.binary.isJson = false ∧
    decode_transaction 0 ⟨.binary⟩ = .error "Transaction is not in JsonParsed format" ∧
    exceptIsError (decode_transaction 0 ⟨.binary⟩) = true := by
  decide

/-- C5 (amended): a Json transaction whose message is not in parsed form
yields an empty successful result, and the decoder errs exactly on the
transactions whose outer encoding is not the Json form. -/
theorem decode_error_iff_not_json (now : Nat)
    (tx : EncodedConfirmedTransactionWithStatusMeta) (signatures : List String) :
    decode_transaction now ⟨.json signatures .raw⟩ = .ok [] ∧
    exceptIsError (decode_transaction now tx) = !tx.transaction.isJson := by
  refine ⟨rfl, ?_⟩
  obtain ⟨t⟩ := tx
  cases t with
  | json s message => cases message <;> rfl
  | legacyBinary => rfl
  | binary => rfl
  | accounts => rfl

/-! ## C3: event dispatch -/

lemma forwardOne_notify_count (signature : String)
    (sendRes : WebSocketMessage → Except String Unit)
    (tgRes : String → Except String Unit) (u : WebSocketMessage) :
    (forwardOne signature sendRes tgRes u).countP (fun a => a.isTelegramNotify) =
      if u.isPoolUpdate then 1 else 0 := by
  cases u with
  | PoolUpdate p =>
    cases hs : sendRes (WebSocketMessage.PoolUpdate p) <;> cases ht : tgRes signature <;>
      simp [forwardOne, hs, ht, Action.isTelegramNotify, WebSocketMessage.isPoolUpdate,
        List.countP_cons, List.countP_append]
  | TokenListing t =>
    simp [forwardOne, Action.isTelegramNotify, WebSocketMessage.isPoolUpdate, List.countP_cons]
  | PriceUpdate p =>
    simp [forwardOne, Action.isTelegramNotify, WebSocketMessage.isPoolUpdate, List.countP_cons]
  | Error e =>
    simp [forwardOne, Action.isTelegramNotify, WebSocketMessage.isPoolUpdate, List.countP_cons]

lemma forwardOne_notify_mem (signature : String)
    (sendRes : WebSocketMessage → Except String Unit)
    (tgRes : String → Except String Unit) (q : PoolUpdate) :
    Action.telegramNotify signature q.pool_address q.token_a q.token_b ∈
      forwardOne signature sendRes tgRes (.PoolUpdate q) := by
  cases hs : sendRes (WebSocketMessage.PoolUpdate q) <;> cases ht : tgRes signature <;>
    simp [forwardOne, hs, ht]

/-- C3 counterexample: with the auto-action policy enabled and two
configured wallets, consuming a `PoolCreated` event from the bus only
logs it — the orchestrator performs no notification and no
trade-execution call for that event. -/
theorem orchestrator_pool_only_logs_cx :
    orchestratorStep true 1 2 (fun _ _ _ => .ok "sig")
        (.PoolUpdate
          { pool_address := "pool", token_a := "ta", token_b := "tb",
            liquidity := 0, volume_24h := 0, timestamp := 1 }) =
      [Action.logInfo "Pool update: pool"] ∧
    (orchestratorStep true 1 2 (fun _ _ _ => .ok "sig")
        (.PoolUpdate
          { pool_address := "pool", token_a := "ta", token_b := "tb",
            liquidity := 0, volume_24h := 0, timestamp := 1 })).any Action.isSnipeCall = false ∧
    (orchestratorStep true 1 2 (fun _ _ _ => .ok "sig")
        (.PoolUpdate
          { pool_address := "pool", token_a := "ta", token_b := "tb",
            liquidity := 0, volume_24h := 0, timestamp := 1 })).any
      Action.isTelegramNotify = false := by
  decide

/-- C3 (amended): the orchestrator only logs a `PoolCreated` event taken
from the bus; the notification forward happens in the chain watcher at
publish time — one Telegram notification per decoded `PoolCreated`, with
the event's addresses; the per-wallet trade loop runs on `TokenListed`
events when `auto_sell` is enabled, invoking `snipe_token` for every
configured wallet index whatever each call's outcome, so one wallet's
failure aborts neither the remaining wallets nor later events. -/
theorem event_dispatch_amended (auto_sell : Bool) (max_sol : Rat) (num_wallets : Nat)
    (snipe : Nat → String → Rat → Except String String) (p : PoolUpdate)
    (listing : TokenListing) (signature : String) (updates : List WebSocketMessage)
    (sendRes : WebSocketMessage → Except String Unit)
    (tgRes : String → Except String Unit) :
    orchestratorStep auto_sell max_sol num_wallets snipe (.PoolUpdate p) =
      [Action.logInfo ("Pool update: " ++ p.pool_address)] ∧
    (forwardDecoded signature updates sendRes tgRes).countP (fun a => a.isTelegramNotify) =
      updates.countP (fun m => m.isPoolUpdate) ∧
    (∀ q, WebSocketMessage.PoolUpdate q ∈ updates →
      Action.telegramNotify signature q.pool_address q.token_a q.token_b ∈
        forwardDecoded signature updates sendRes tgRes) ∧
    (auto_sell = true → ∀ i, i < num_wallets →
      Action.snipeCall i listing.token_address max_sol ∈
        orchestratorStep auto_sell max_sol num_wallets snipe (.TokenListing listing)) := by
  refine ⟨rfl, ?_, ?_, ?_⟩
  · induction updates with
    | nil => rfl
    | cons u rest ih =>
      simp only [forwardDecoded, List.flatMap_cons, List.countP_append, List.countP_cons]
      rw [forwardOne_notify_count]
      simp only [forwardDecoded] at ih
      rw [ih]
      split <;> omega
  · intro q hq
    exact List.mem_flatMap.mpr ⟨_, hq, forwardOne_notify_mem signature sendRes tgRes q⟩
  · intro hauto i hi
    subst hauto
    simp only [orchestratorStep, if_true]
    refine List.mem_cons_of_mem _ ?_
    exact List.mem_flatMap.mpr ⟨i, List.mem_range.mpr hi, List.mem_cons_self _ _⟩

/-- Witness for C3: with `auto_sell` on, two wallets and a
trade-execution collaborator that always fails as unimplemented, the
second wallet is still invoked. -/
theorem event_dispatch_amended_witness :
    Action.snipeCall 1 "tok" 5 ∈
      orchestratorStep true 5 2 (fun _ _ _ => .error "not implemented")
        (.TokenListing
          { token_address := "tok", symbol := "SYM", name := "Name",
            initial_liquidity := 0, timestamp := 3 }) :=
  (event_dispatch_amended true 5 2 (fun _ _ _ => .error "not implemented")
      { pool_address := "p", token_a := "a", token_b := "b",
        liquidity := 0, volume_24h := 0, timestamp := 0 }
      { token_address := "tok", symbol := "SYM", name := "Name",
        initial_liquidity := 0, timestamp := 3 }
      "sig" [] (fun _ => .ok ()) (fun _ => .ok ())).2.2.2 rfl 1 (by decide)

/-! ## C7: feed-monitor message processing -/

lemma dispatchMethod_result (m : String) (v : JsonValue) :
    (dispatchMethod m v).result = .ok () := by
  simp only [dispatchMethod]
  split
  · split <;> rfl
  · split
    · split <;> rfl
    · split
      · split <;> rfl
      · rfl

lemma processMessage_result (input : Option JsonValue) :
    (processMessage input).result = .ok () := by
  cases input with
  | none => rfl
  | some data =>
    simp only [processMessage]
    split
    · rfl
    · split
      · rfl
      · split
        · rfl
        · exact dispatchMethod_result _ _

/-- C7 counterexample: a syntactically invalid frame is dropped with no
logged warning at all — the claimed warning is absent (and so is any
error). -/
theorem invalid_frame_no_warning_cx :
    processMessage none = { result := .ok (), sent := [], warnings := [] } ∧
    (processMessage none).warnings = [] := ⟨rfl, rfl⟩

/-- C7 (amended): `process_message` never returns an error for any
inbound text frame; a frame with a recognized method and a well-shaped
payload is emitted as the corresponding variant; an unknown method is
dropped with a logged warning; a malformed payload, a missing method and
invalid JSON are each dropped silently; and a text frame never breaks the
read loop. -/
theorem process_message_total (input : Option JsonValue) (v : JsonValue)
    (p : PoolUpdate) (t : TokenListing) (pr : PriceUpdate) (m : String) :
    (processMessage input).result = .ok () ∧
    (deserPoolUpdate v = some p →
      processMessage (some (.obj [("params",
          .obj [("method", .str "poolUpdate"), ("result", v)])])) =
        { result := .ok (), sent := [WebSocketMessage.PoolUpdate p], warnings := [] }) ∧
    (deserTokenListing v = some t →
      processMessage (some (.obj [("params",
          .obj [("method", .str "tokenListing"), ("result", v)])])) =
        { result := .ok (), sent := [WebSocketMessage.TokenListing t], warnings := [] }) ∧
    (deserPriceUpdate v = some pr →
      processMessage (some (.obj [("params",
          .obj [("method", .str "priceUpdate"), ("result", v)])])) =
        { result := .ok (), sent := [WebSocketMessage.PriceUpdate pr], warnings := [] }) ∧
    (m ≠ "poolUpdate" → m ≠ "tokenListing" → m ≠ "priceUpdate" →
      processMessage (some (.obj [("params",
          .obj [("method", .str m), ("result", v)])])) =
        { result := .ok (), sent := [],
          warnings := ["Unknown WebSocket method: " ++ m] }) ∧
    (deserPoolUpdate v = none →
      processMessage (some (.obj [("params",
          .obj [("method", .str "poolUpdate"), ("result", v)])])) =
        { result := .ok (), sent := [], warnings := [] }) ∧
    processMessage none = { result := .ok (), sent := [], warnings := [] } ∧
    handleFrame (.text input) = .cont := by
  have hdisp : ∀ me : String,
      processMessage (some (.obj [("params",
        .obj [("method", .str me), ("result", v)])])) = dispatchMethod me v := fun me => rfl
  refine ⟨processMessage_result input, ?_, ?_, ?_, ?_, ?_, rfl, rfl⟩
  · intro hp
    rw [hdisp, dispatchMethod, if_pos rfl, hp]
  · intro ht
    rw [hdisp, dispatchMethod, if_neg (by decide), if_pos rfl, ht]
  · intro hpr
    rw [hdisp, dispatchMethod, if_neg (by decide), if_neg (by decide), if_pos rfl, hpr]
  · intro h1 h2 h3
    rw [hdisp, dispatchMethod, if_neg h1, if_neg h2, if_neg h3]
  · intro hnone
    rw [hdisp, dispatchMethod, if_pos rfl, hnone]

/-- Witness for C7 at a concrete well-shaped poolUpdate frame. -/
theorem process_message_total_witness :
    processMessage (some (.obj [("params",
        .obj [("method", .str "poolUpdate"), ("result",
          .obj [("pool_address", .str "pp"), ("token_a", .str "xx"),
            ("token_b", .str "yy"), ("liquidity", .num 5), ("volume_24h", .num 6),
            ("timestamp", .num 123)])])])) =
      { result := .ok (),
        sent := [WebSocketMessage.PoolUpdate
          { pool_address := "pp", token_a := "xx", token_b := "yy",
            liquidity := 5, volume_24h := 6, timestamp := 123 }],
        warnings := [] } :=
  (process_message_total none
    (.obj [("pool_address", .str "pp"), ("token_a", .str "xx"), ("token_b", .str "yy"),
      ("liquidity", .num 5), ("volume_24h", .num 6), ("timestamp", .num 123)])
    { pool_address := "pp", token_a := "xx", token_b := "yy",
      liquidity := 5, volume_24h := 6, timestamp := 123 }
    { token_address := "", symbol := "", name := "", initial_liquidity := 0, timestamp := 0 }
    { token_address := "", price := 0, price_change_24h := 0, volume_24h := 0, timestamp := 0 }
    "unknown").2.1 (by decide)

/-! ## C8: subscription handshake ordering -/

/-- C8: on every connection iteration, every event consumed before the
first handshake send is not a frame read (so the handshake precedes all
inbound-frame consumption); when the handshake send fails the iteration
reads no frame at all and is exactly connect, handshake send, failure,
then the configured reconnect sleep; the loop then proceeds to the next
connection attempt; the handshake frame is the JSON-RPC subscribe request
naming the three subscribed topics. -/
theorem handshake_before_frames (d : Nat) (oc : ConnOutcome) :
    ((connectionIteration d oc).takeWhile (fun ev => !ev.isSentHandshake)).all
        (fun ev => !ev.isReadFrame) = true ∧
    (∀ e frames, oc = ConnOutcome.connected (.error e) frames →
      (connectionIteration d oc).all (fun ev => !ev.isReadFrame) = true ∧
      connectionIteration d oc =
        [.connectAttempt, .sentHandshake subscribeMsg, .handshakeFailed e, .sleep d]) ∧
    (∀ rest, monitorTrace d (oc :: rest) =
      connectionIteration d oc ++ monitorTrace d rest) ∧
    (connectionIteration d oc).head? = some .connectAttempt ∧
    subscribeMsg.getKey "jsonrpc" = some (.str "2.0") ∧
    subscribeMsg.getKey "id" = some (.num 1) ∧
    subscribeMsg.getKey "method" = some (.str "subscribe") ∧
    subscribeMsg.getKey "params" =
      some (.arr [.str "poolUpdates", .str "tokenListings", .str "priceUpdates"]) := by
  refine ⟨?_, ?_, ?_, ?_, rfl, rfl, rfl, rfl⟩
  · cases oc with
    | connectErr e =>
      simp [connectionIteration, List.takeWhile_cons, MonitorEvent.isSentHandshake,
        MonitorEvent.isReadFrame]
    | connected hs frames =>
      cases hs <;>
        simp [connectionIteration, List.takeWhile_cons, MonitorEvent.isSentHandshake,
          MonitorEvent.isReadFrame]
  · intro e frames h
    subst h
    refine ⟨?_, rfl⟩
    simp [connectionIteration, MonitorEvent.isReadFrame]
  · intro rest
    simp [monitorTrace, List.flatMap_cons]
  · cases oc with
    | connectErr e => rfl
    | connected hs frames => cases hs <;> rfl

/-- Witness for C8 at a failing handshake with one pending frame. -/
theorem handshake_before_frames_witness :
    (connectionIteration 7 (.connected (.error "send failed") [Frame.other])).all
        (fun ev => !ev.isReadFrame) = true ∧
    connectionIteration 7 (.connected (.error "send failed") [Frame.other]) =
      [.connectAttempt, .sentHandshake subscribeMsg, .handshakeFailed "send failed",
        .sleep 7] :=
  (handshake_before_frames 7 (.connected (.error "send failed") [Frame.other])).2.1
    "send failed" [Frame.other] rfl

/-! ## C10: wallet-index guards -/

/-- C10: with a wallet index at or past the number of configured wallets,
`check_balance`, `feed_wallet` (either position) and `snipe_token` each
return the "Invalid wallet index" error, perform no chain operation, and
leave the bot state untouched. -/
theorem invalid_wallet_index_guard (wallets : List String) (env : ChainEnv)
    (amount : Rat) (anti_rug_check : Bool) (max_price_impact : Rat)
    (state : SniperState) (now : Nat) (token_address : String) (i j : Nat)
    (hi : i ≥ wallets.length) :
    check_balance wallets env i = (.error "Invalid wallet index", []) ∧
    feed_wallet wallets env i j amount = (.error "Invalid wallet index", []) ∧
    feed_wallet wallets env j i amount = (.error "Invalid wallet index", []) ∧
    snipe_token wallets env anti_rug_check max_price_impact state now
        i token_address amount =
      (.error "Invalid wallet index", [], state) := by
  refine ⟨?_, ?_, ?_, ?_⟩
  · simp [check_balance, hi]
  · simp [feed_wallet, hi]
  · simp [feed_wallet, hi]
  · simp [snipe_token, hi]

/-- Witness for C10 at index 1 with a single configured wallet. -/
theorem invalid_wallet_index_guard_witness :
    check_balance ["w0"]
        { getBalance := fun _ => .ok 0, getLatestBlockhash := .ok "bh",
          sendAndConfirmTransaction := .ok "sig", analyzeToken := fun _ => .ok true,
          jupiterQuotePriceImpact := fun _ _ => .ok 0, jupiterSwap := .ok "sig" } 1 =
      (.error "Invalid wallet index", []) ∧
    snipe_token ["w0"]
        { getBalance := fun _ => .ok 0, getLatestBlockhash := .ok "bh",
          sendAndConfirmTransaction := .ok "sig", analyzeToken := fun _ => .ok true,
          jupiterQuotePriceImpact := fun _ _ => .ok 0, jupiterSwap := .ok "sig" }
        true 1
        { is_running := true, total_trades := 0, successful_trades := 0,
          failed_trades := 0, total_profit := 0, last_snipe_time := 0,
          active_monitors := 1 } 9 1 "tok" 2 =
      (.error "Invalid wallet index", [],
        { is_running := true, total_trades := 0, successful_trades := 0,
          failed_trades := 0, total_profit := 0, last_snipe_time := 0,
          active_monitors := 1 }) := by
  have h := invalid_wallet_index_guard ["w0"]
    { getBalance := fun _ => .ok 0, getLatestBlockhash := .ok "bh",
      sendAndConfirmTransaction := .ok "sig", analyzeToken := fun _ => .ok true,
      jupiterQuotePriceImpact := fun _ _ => .ok 0, jupiterSwap := .ok "sig" }
    2 true 1
    { is_running := true, total_trades := 0, successful_trades := 0,
      failed_trades := 0, total_profit := 0, last_snipe_time := 0,
      active_monitors := 1 } 9 "tok" 1 0 (by decide)
  exact ⟨h.1, h.2.2.2⟩

end SniperBot
